import Mathlib

/-!
# Verification of the apikit specification-resolution and adaptation engine

This development is a shallow embedding, in Lean 4, of the Python package
`apikit` (files `apikit/specs.py`, `apikit/default.py`, `apikit/session.py`,
`apikit/protocols.py`).  Python values that may be `None` are embedded as
`Option`; Python truthiness (`x or y`) is embedded explicitly; fallible code
returns `Except PyError`.  Class bodies of user-defined subclasses are
embedded as explicit attribute layers (the method-resolution order of a
declaring class), since `HTTPGatewaySpec.__init__` reads attributes with
`getattr(cls, name, default)`, which walks the inheritance chain from the
most derived class to the least derived one.

External collaborators (the `requests` transport, `pydantic` codecs, the
`flask` application context) are not part of the repository; where their
behaviour decides a property they are modelled from the specification's
words, and each such definition is marked `Modelled from the spec:`.
-/

/-- Errors surfaced by the embedded code.  Python exception classes are
mapped one-to-one: `AssertionError` (the `assert` statements of
`HTTPGatewaySpec.__init__`), `ValueError` (raised by `get_url`),
`TypeError` (unexpected keyword argument at a call site), `HTTPError`
(raised by `raise_for_status`), and the pydantic validation failure that
the specification calls `DecodingError`. -/
inductive PyError where
  | assertionError (msg : String)
  | valueError (msg : String)
  | typeError (msg : String)
  | attributeError (msg : String)
  | httpError (status : Nat) (reason : String)
  | decodingError (msg : String)
  deriving Repr, DecidableEq

/-- Python truthiness for the payload of a non-`None` value.  Strings are
falsy iff empty, integers are falsy iff zero; enum members, class objects
and ordinary instances are always truthy. -/
class PyTruthy (α : Type) where
  truthy : α → Bool

instance : PyTruthy String := ⟨fun s => !(s == "")⟩

instance : PyTruthy Nat := ⟨fun n => !(n == 0)⟩

/-- Truthiness of an embedded Python value (`none` embeds Python `None`,
which is always falsy). -/
def truthyPV {α : Type} [PyTruthy α] : Option α → Bool
  | none => false
  | some x => PyTruthy.truthy x

/-- The Python expression `a or b`: `a` when `a` is truthy, otherwise `b`
(even when `b` is itself falsy). -/
def pyOr {α : Type} [PyTruthy α] (a b : Option α) : Option α :=
  if truthyPV a then a else b

/-- The first class of an inheritance chain that defines the attribute:
each entry is `some v` when the class's own dict has the attribute with
value `v`, `none` when the class does not define it. -/
def firstDefined {α : Type} (entries : List (Option α)) : Option α :=
  entries.findSome? id

/-- `getattr(cls, name, dflt)` over the inheritance chain: the value of the
nearest class that defines the attribute, else the supplied default. -/
def mroGetattr {α : Type} (entries : List (Option (Option α))) (dflt : Option α) : Option α :=
  (firstDefined entries).getD dflt

/-- One merge step of `HTTPGatewaySpec.__init__` (specs.py lines 171-185):
`arg or getattr(cls, name, dflt)`. -/
def mergeField {α : Type} [PyTruthy α] (arg : Option α)
    (entries : List (Option (Option α))) (dflt : Option α) : Option α :=
  pyOr arg (mroGetattr entries dflt)

section UrlResolver

/-- `scheme_chars` of CPython `urllib.parse`: letters, digits and `+`, `-`,
`.` are the characters allowed in a URL scheme after its initial letter. -/
def isSchemeChar (c : Char) : Bool :=
  c.isAlpha || c.isDigit || c == '+' || c == '-' || c == '.'

/-- Split a character list at its first `':'`, returning the parts before
and after it, or `none` when there is no colon (CPython `url.find(':')`). -/
def splitAtColon : List Char → Option (List Char × List Char)
  | [] => none
  | c :: cs =>
    if c == ':' then some ([], cs)
    else (splitAtColon cs).map (fun p => (c :: p.1, p.2))

/-- Modelled from the spec: the scheme extraction of CPython
`urllib.parse.urlsplit` (the `urlparse` called by `get_url`, not part of
this repository).  A scheme is the non-empty text before the first colon
when it starts with a letter and continues with scheme characters; it is
reported lowercased, and the remainder follows the colon.  When no valid
scheme is present the whole input is the remainder.  (Stripping of ASCII
control characters, which recent CPython performs, is irrelevant to the
claims and omitted.) -/
def urlsplitScheme (s : List Char) : List Char × List Char :=
  match splitAtColon s with
  | none => ([], s)
  | some (pre, rest) =>
    match pre with
    | [] => ([], s)
    | c0 :: crest =>
      if c0.isAlpha && crest.all isSchemeChar then
        ((c0 :: crest).map Char.toLower, rest)
      else ([], s)

/-- Modelled from the spec: the netloc extraction of CPython
`urllib.parse.urlsplit`: when the text after the scheme starts with `//`,
the netloc is everything up to the next `/`, `?` or `#`. -/
def urlsplitNetloc : List Char → List Char
  | '/' :: '/' :: r => r.takeWhile (fun c => !(c == '/') && !(c == '?') && !(c == '#'))
  | _ => []

/-- The test `parsed.scheme and parsed.netloc` of `get_url` (specs.py
lines 24-28): the string carries both a scheme and a network location. -/
def hasSchemeAndNetloc (s : String) : Bool :=
  let p := urlsplitScheme s.data
  !(p.1 == []) && !(urlsplitNetloc p.2 == [])

/-- `get_url` (specs.py lines 23-35): fail when neither `url` nor
`base_url` is absolute; return `base_url + url` when `url` is not
absolute; otherwise return `url` unchanged. -/
def get_url (base_url url : String) : Except PyError String :=
  if !(hasSchemeAndNetloc url || hasSchemeAndNetloc base_url) then
    .error (.valueError "Either the base_url or url must be a valid URL with scheme and netloc.")
  else if !(hasSchemeAndNetloc url) then
    .ok (base_url ++ url)
  else
    .ok url

end UrlResolver

section ProtocolTypes

/-- The `HTTPMethod` enum of protocols.py (GET, POST, PUT, PATCH,
OPTIONS; the enum defines no other member). -/
inductive HTTPMethod where
  | GET
  | POST
  | PUT
  | PATCH
  | OPTIONS
  deriving Repr, DecidableEq

instance : PyTruthy HTTPMethod := ⟨fun _ => true⟩

/-- `HTTPMethod.value`: the string payload of each enum member. -/
def HTTPMethod.value : HTTPMethod → String
  | .GET => "GET"
  | .POST => "POST"
  | .PUT => "PUT"
  | .PATCH => "PATCH"
  | .OPTIONS => "OPTIONS"

/-- A user-declared request/response model class (pydantic `BaseModel`,
dataclass or `TypedDict`).  At the resolution layer of specs.py a model is
only ever stored and handed to an adapter constructor, so it is embedded
as an opaque class token. -/
structure ModelType where
  name : String
  deriving Repr, DecidableEq

instance : PyTruthy ModelType := ⟨fun _ => true⟩

/-- A request-adapter class token (`DefaultHTTPRequestAdapter` or a user
subclass); specs.py only ever calls it as `cls(model=m)`. -/
structure ReqAdapterClass where
  name : String
  deriving Repr, DecidableEq

/-- The object produced by calling a request-adapter class with a model:
`cls(model=m)` in specs.py lines 193-197.  The token records exactly which
constructor was called and with which model argument. -/
structure ReqAdapterInst where
  cls : ReqAdapterClass
  model : Option ModelType
  deriving Repr, DecidableEq

/-- `DefaultHTTPRequestAdapter`, the system-default request adapter class
(specs.py line 146 and the `getattr` default on line 176). -/
def defaultReqAdapterClass : ReqAdapterClass := ⟨"DefaultHTTPRequestAdapter"⟩

/-- A merged request-adapter reference: either a *class* (detected by
`isclass` in specs.py) or an already-constructed *instance*. -/
inductive ReqAdapterRef where
  | cls (c : ReqAdapterClass)
  | inst (a : ReqAdapterInst)
  deriving Repr, DecidableEq

/-- Adapter instances are ordinary Python objects, hence truthy. -/
instance : PyTruthy ReqAdapterInst := ⟨fun _ => true⟩

instance : PyTruthy ReqAdapterRef := ⟨fun _ => true⟩

/-- A response-adapter class token (`DefaultHTTPResponseAdapter` or a user
subclass). -/
structure RespAdapterClass where
  name : String
  deriving Repr, DecidableEq

/-- The object produced by calling a response-adapter class with a model
(specs.py lines 199-203). -/
structure RespAdapterInst where
  cls : RespAdapterClass
  model : Option ModelType
  deriving Repr, DecidableEq

/-- `DefaultHTTPResponseAdapter`, the system-default response adapter
class (specs.py line 147 and the `getattr` default on line 179). -/
def defaultRespAdapterClass : RespAdapterClass := ⟨"DefaultHTTPResponseAdapter"⟩

/-- A merged response-adapter reference: class or instance. -/
inductive RespAdapterRef where
  | cls (c : RespAdapterClass)
  | inst (a : RespAdapterInst)
  deriving Repr, DecidableEq

/-- Adapter instances are ordinary Python objects, hence truthy. -/
instance : PyTruthy RespAdapterInst := ⟨fun _ => true⟩

instance : PyTruthy RespAdapterRef := ⟨fun _ => true⟩

/-- A session class token (`DefaultHttpSession` or a user subclass).  The
classmethods of session.py use the class only through `cls.__name__` and
`cls(read_timeout=...)`, so the name identifies it. -/
structure SessionCls where
  name : String
  deriving Repr, DecidableEq

instance : PyTruthy SessionCls := ⟨fun _ => true⟩

/-- `DefaultHttpSession`, the system-default session class (specs.py line
144 and the `getattr` default on line 183). -/
def defaultSessionCls : SessionCls := ⟨"DefaultHttpSession"⟩

/-- A `StaticTokenSessionAuthorizer` (session.py lines 28-40): it is fully
determined by its token. -/
structure SessionAuthorizer where
  token : String
  deriving Repr, DecidableEq

instance : PyTruthy SessionAuthorizer := ⟨fun _ => true⟩

/-- A gateway class reference: the default `DefaultHTTPRequestGateway`
whose constructor is modelled from default.py, or a user-defined class
known only by name (its constructor body is a parameter of the model). -/
inductive GatewayRef where
  | defaultGateway
  | custom (name : String)
  deriving Repr, DecidableEq

instance : PyTruthy GatewayRef := ⟨fun _ => true⟩

end ProtocolTypes

section SpecMerge

/-- The call-time keyword arguments of `HTTPGatewaySpec.__init__`
(specs.py lines 152-166), with the same defaults: every argument defaults
to `None` except `base_url`, which defaults to `""`.  Passing `None`
explicitly is indistinguishable from omitting the argument, exactly as in
the Python signature. -/
structure SpecArgs where
  url : Option String := none
  method : Option HTTPMethod := none
  base_url : Option String := some ""
  timeout : Option Nat := none
  request_adapter : Option ReqAdapterRef := none
  response_adapter : Option RespAdapterRef := none
  request_model : Option ModelType := none
  response_model : Option ModelType := none
  session : Option SessionCls := none
  authorizer : Option SessionAuthorizer := none
  gateway : Option GatewayRef := none

/-- One class of a declaring class's inheritance chain: for each
configuration attribute, `some v` when the class body defines it and
`none` when it does not.  Attribute values respect the source's type
annotations: `base_url : str` and `url` are strings, while `method`,
`timeout`, the models and `authorizer` may be declared as `None` (the
base class itself declares them so), hence their values are `Option`. -/
structure SpecLayer where
  url : Option String := none
  method : Option (Option HTTPMethod) := none
  base_url : Option String := none
  timeout : Option (Option Nat) := none
  request_adapter : Option ReqAdapterRef := none
  response_adapter : Option RespAdapterRef := none
  request_model : Option (Option ModelType) := none
  response_model : Option (Option ModelType) := none
  session : Option SessionCls := none
  authorizer : Option (Option SessionAuthorizer) := none
  gateway : Option GatewayRef := none

/-- The class-level defaults declared in the body of `HTTPGatewaySpec`
itself (specs.py lines 139-150).  It sits at the end of every declaring
class's inheritance chain; it defines every attribute except `url`. -/
def baseLayer : SpecLayer where
  url := none
  method := some none
  base_url := some ""
  timeout := some none
  request_adapter := some (.cls defaultReqAdapterClass)
  response_adapter := some (.cls defaultRespAdapterClass)
  request_model := some none
  response_model := some none
  session := some defaultSessionCls
  authorizer := some none
  gateway := some .defaultGateway

/-- The inheritance chain of a declaring class: its user-written layers
from most derived to least derived, followed by the class body of
`HTTPGatewaySpec` itself. -/
def specMRO (userLayers : List SpecLayer) : List SpecLayer :=
  userLayers ++ [baseLayer]

/-- Attribute entries of a chain for a string-typed field: a defined
string value `v` is the Python value `v` (never `None`). -/
def strEntries (f : SpecLayer → Option String) (mro : List SpecLayer) :
    List (Option (Option String)) :=
  mro.map (fun L => (f L).map some)

/-- Attribute entries of a chain for a field whose declared value may
itself be `None`. -/
def optEntries {α : Type} (f : SpecLayer → Option (Option α)) (mro : List SpecLayer) :
    List (Option (Option α)) :=
  mro.map f

/-- Attribute entries of a chain for a field whose declared value is an
object reference (adapter, session or gateway class), never `None`. -/
def refEntries {α : Type} (f : SpecLayer → Option α) (mro : List SpecLayer) :
    List (Option (Option α)) :=
  mro.map (fun L => (f L).map some)

/-- The configuration produced by the merge block of
`HTTPGatewaySpec.__init__` (the `_url`, `_method`, ... local variables of
specs.py lines 171-185). -/
structure MergedConfig where
  url : Option String
  method : Option HTTPMethod
  base_url : Option String
  timeout : Option Nat
  request_adapter : Option ReqAdapterRef
  response_adapter : Option RespAdapterRef
  request_model : Option ModelType
  response_model : Option ModelType
  session : Option SessionCls
  authorizer : Option SessionAuthorizer
  gateway : Option GatewayRef

/-- The merge block of `HTTPGatewaySpec.__init__` (specs.py lines
171-185), field by field: `arg or getattr(cls, name, dflt)`, with
`base_url` additionally passed through the trailing `or ""` of line 173,
and the `getattr` defaults exactly as written in the source. -/
def mergeConfig (args : SpecArgs) (userLayers : List SpecLayer) : MergedConfig :=
  let mro := specMRO userLayers
  { url := mergeField args.url (strEntries SpecLayer.url mro) none
    method := mergeField args.method (optEntries SpecLayer.method mro) none
    base_url := pyOr (mergeField args.base_url (strEntries SpecLayer.base_url mro) (some "")) (some "")
    timeout := mergeField args.timeout (optEntries SpecLayer.timeout mro) none
    request_adapter := mergeField args.request_adapter
      (refEntries SpecLayer.request_adapter mro) (some (.cls defaultReqAdapterClass))
    response_adapter := mergeField args.response_adapter
      (refEntries SpecLayer.response_adapter mro) (some (.cls defaultRespAdapterClass))
    request_model := mergeField args.request_model (optEntries SpecLayer.request_model mro) none
    response_model := mergeField args.response_model (optEntries SpecLayer.response_model mro) none
    session := mergeField args.session (refEntries SpecLayer.session mro) (some defaultSessionCls)
    authorizer := mergeField args.authorizer (optEntries SpecLayer.authorizer mro) none
    gateway := mergeField args.gateway (refEntries SpecLayer.gateway mro) (some .defaultGateway) }

end SpecMerge

section SessionModel

/-- Decimal digits of `n`, most significant first, computed with
structural fuel so that concrete values reduce in the kernel. -/
def decChars : Nat → Nat → List Char
  | 0, _ => []
  | fuel + 1, n =>
    if n < 10 then [Nat.digitChar n]
    else decChars fuel (n / 10) ++ [Nat.digitChar (n % 10)]

/-- Python `str(n)` for a natural number: its decimal representation. -/
def pyStrNat (n : Nat) : String := ⟨decChars (n + 1) n⟩

/-- Python `str(x)` for an `Optional[int]`: `"None"` for `None`, decimal
digits otherwise — the `str(salt)` of `DefaultHttpSession._context_key`
(session.py line 102). -/
def pyStr : Option Nat → String
  | none => "None"
  | some n => pyStrNat n

/-- `DefaultHttpSession._context_key(salt)` (session.py lines 100-102):
`cls.__name__ + str(salt)`. -/
def contextKey (clsName : String) (readTimeout : Option Nat) : String :=
  clsName ++ pyStr readTimeout

/-- A constructed session object.  `sid` is the object's identity (fresh
per construction), `clsName` the class that was instantiated,
`readTimeout` the effective read timeout installed by
`DefaultHttpSession.__init__` (`read_timeout or 60`, session.py line 47),
and `auth` the bearer token installed by an authorizer, if any. -/
structure SessionInst where
  sid : Nat
  clsName : String
  readTimeout : Nat
  auth : Option String
  deriving Repr, DecidableEq

/-- `DefaultHttpSession._initialize(authorizer, read_timeout)` (session.py
lines 83-88) composed with `__init__` (lines 46-66) and
`StaticTokenSessionAuthorizer.authorize` (lines 35-37): construct a fresh
session of class `cls` with effective timeout `read_timeout or 60`, then
attach the authorizer's bearer token when an authorizer is given.  `n` is
the allocator for fresh object identities; it increases on every
construction. -/
def mkSessionInst (cls : SessionCls) (auth : Option SessionAuthorizer)
    (readTimeout : Option Nat) (n : Nat) : SessionInst × Nat :=
  let rt := (pyOr readTimeout (some 60)).getD 60
  (⟨n, cls.name, rt, auth.map SessionAuthorizer.token⟩, n + 1)

/-- The flask application context plus the object allocator: the context,
when present, is the dictionary that `from_context` caches sessions in. -/
structure SessionCtx where
  nextId : Nat
  store : List (String × SessionInst)
  deriving Repr, DecidableEq

/-- `DefaultHttpSession.from_context(context, authorizer, read_timeout)`
(session.py lines 68-81): compute the context key, then
`context.setdefault(context_key, cls._initialize(authorizer,
read_timeout))`.  Python evaluates the call's arguments before calling
`setdefault`, so a fresh session is constructed on every call; it is
stored and returned when the key is absent, and discarded (only the
allocation remains observable) when a cached session exists. -/
def fromContext (cls : SessionCls) (ctx : SessionCtx)
    (auth : Option SessionAuthorizer) (readTimeout : Option Nat) :
    SessionInst × SessionCtx :=
  let key := contextKey cls.name readTimeout
  let fresh := mkSessionInst cls auth readTimeout ctx.nextId
  match ctx.store.lookup key with
  | some s => (s, ⟨fresh.2, ctx.store⟩)
  | none => (fresh.1, ⟨fresh.2, ctx.store ++ [(key, fresh.1)]⟩)

/-- `DefaultHttpSession.from_app_context_or_new` (session.py lines
90-98): with a flask application context available, delegate to
`from_context` on the current app; otherwise fall back to a fresh
session construction.  `flaskStore` embeds the dictionary of the current
app when the flask module loads. -/
def fromAppContextOrNew (cls : SessionCls) (nextId : Nat)
    (flaskStore : Option (List (String × SessionInst)))
    (auth : Option SessionAuthorizer) (readTimeout : Option Nat) :
    SessionInst × Nat × Option (List (String × SessionInst)) :=
  match flaskStore with
  | some store =>
    let r := fromContext cls ⟨nextId, store⟩ auth readTimeout
    (r.1, r.2.nextId, some r.2.store)
  | none =>
    let r := mkSessionInst cls auth readTimeout nextId
    (r.1, r.2, none)

end SessionModel

section GatewayConstruction

/-- HTTP headers as the `requests` library consumes them. -/
def Headers := List (String × String)
deriving instance Repr, DecidableEq for Headers

/-- The object constructed by `DefaultHTTPRequestGateway.__init__`
(default.py lines 118-133): it stores the session, url, method, headers
and the two adapters — and nothing else; in particular the class has no
timeout attribute.  The stored adapter types are parameters because the
class is generic and merely stores them. -/
structure DefaultHTTPRequestGateway (S RA QA : Type) where
  session : S
  url : String
  method : HTTPMethod
  headers : Option Headers := none
  request_adapter : RA
  response_adapter : QA
  deriving Repr, DecidableEq

/-- The keyword arguments that `HTTPGatewaySpec.__init__` passes to the
merged gateway class (specs.py lines 205-212): `session`, `url`,
`method`, `timeout`, `request_adapter`, `response_adapter` — and no
`headers`.  For `timeout` the outer `Option` records whether the keyword
is passed at all (specs.py always passes it), because passing a keyword a
signature does not accept raises `TypeError` regardless of its value. -/
structure GatewayCallKwargs where
  session : SessionInst
  url : String
  method : HTTPMethod
  timeout : Option (Option Nat) := none
  request_adapter : Option ReqAdapterInst := none
  response_adapter : Option RespAdapterInst := none
  deriving Repr, DecidableEq

/-- An `HTTPRequestGateway` object at the resolution layer: the adapter
fields hold the opaque adapter instances resolved by specs.py. -/
def ResolvedGateway := DefaultHTTPRequestGateway SessionInst ReqAdapterInst RespAdapterInst
deriving instance Repr, DecidableEq for ResolvedGateway

/-- Calling the class `DefaultHTTPRequestGateway` with the keyword
arguments of specs.py lines 205-212.  The signature of
`DefaultHTTPRequestGateway.__init__` (default.py lines 118-127) is
`(*, session, url, method, headers=None, request_adapter=None,
response_adapter=None)`: it declares no `timeout` parameter and no
`**kwargs`, so a call that passes `timeout` raises `TypeError`.
Otherwise the body stores the fields, substituting
`DefaultHTTPRequestAdapter()` / `DefaultHTTPResponseAdapter()` for falsy
adapter arguments (default.py lines 131-132). -/
def callDefaultGateway (kw : GatewayCallKwargs) : Except PyError ResolvedGateway :=
  if kw.timeout.isSome then
    .error (.typeError "DefaultHTTPRequestGateway.__init__ got an unexpected keyword argument timeout")
  else
    .ok { session := kw.session
          url := kw.url
          method := kw.method
          headers := none
          request_adapter := (pyOr kw.request_adapter (some ⟨defaultReqAdapterClass, none⟩)).getD ⟨defaultReqAdapterClass, none⟩
          response_adapter := (pyOr kw.response_adapter (some ⟨defaultRespAdapterClass, none⟩)).getD ⟨defaultRespAdapterClass, none⟩ }

/-- The request-adapter initialization of `HTTPGatewaySpec.__init__`
(specs.py lines 193-197): `ref(model=model) if isclass(ref) else ref`.
A class reference is instantiated — once — with the model it is given; an
instance reference is returned unchanged and the model is ignored; a
`None` reference is not a class, so it too passes through unchanged. -/
def initRequestAdapter (ref : Option ReqAdapterRef) (model : Option ModelType) :
    Option ReqAdapterInst :=
  match ref with
  | some (.cls c) => some ⟨c, model⟩
  | some (.inst a) => some a
  | none => none

/-- The response-adapter initialization of `HTTPGatewaySpec.__init__`
(specs.py lines 199-203), same shape as the request side. -/
def initResponseAdapter (ref : Option RespAdapterRef) (model : Option ModelType) :
    Option RespAdapterInst :=
  match ref with
  | some (.cls c) => some ⟨c, model⟩
  | some (.inst a) => some a
  | none => none

/-- The constructors of user-defined gateway classes are not part of the
repository; a model of them is a parameter mapping the class name and the
call's keyword arguments to the constructed object. -/
def CustomGatewayInits := String → GatewayCallKwargs → Except PyError ResolvedGateway

/-- `HTTPGatewaySpec.__init__` (specs.py lines 152-212), end to end:
merge each field by precedence (lines 171-185), assert `url` and `method`
truthy (lines 187-188), finalize the URL with `get_url` (line 190),
acquire a session with `_session.from_app_context_or_new(authorizer=_auth)`
(line 191 — note no timeout is forwarded), initialize the adapters
(lines 193-203), and finally call the merged gateway class with
`session, url, method, timeout, request_adapter, response_adapter`
(lines 205-212).  `nextId`/`flaskStore` thread the session allocator and
the optional flask application context; on success they are returned
updated together with the constructed gateway. -/
def specResolve (customInit : CustomGatewayInits) (args : SpecArgs)
    (userLayers : List SpecLayer) (nextId : Nat)
    (flaskStore : Option (List (String × SessionInst))) :
    Except PyError (ResolvedGateway × Nat × Option (List (String × SessionInst))) :=
  let m := mergeConfig args userLayers
  match m.url with
  | none => .error (.assertionError "url must be provided")
  | some u =>
    if u == "" then .error (.assertionError "url must be provided")
    else
      match m.method with
      | none => .error (.assertionError "method must be provided")
      | some mth =>
        match get_url (m.base_url.getD "") u with
        | .error e => .error e
        | .ok fullUrl =>
          match m.session with
          | none => .error (.attributeError "NoneType object has no attribute from_app_context_or_new")
          | some scls =>
            let s := fromAppContextOrNew scls nextId flaskStore m.authorizer none
            let kw : GatewayCallKwargs :=
              { session := s.1
                url := fullUrl
                method := mth
                timeout := some m.timeout
                request_adapter := initRequestAdapter m.request_adapter m.request_model
                response_adapter := initResponseAdapter m.response_adapter m.response_model }
            match m.gateway with
            | none => .error (.typeError "NoneType object is not callable")
            | some .defaultGateway => (callDefaultGateway kw).map (fun g => (g, s.2))
            | some (.custom nm) => (customInit nm kw).map (fun g => (g, s.2))

end GatewayConstruction

section DefaultAdapters

/-- `is_like_get` (default.py lines 18-19): GET and OPTIONS are the
read-like methods. -/
def is_like_get (m : HTTPMethod) : Bool :=
  [HTTPMethod.GET, HTTPMethod.OPTIONS].contains m

/-- `is_like_post` (default.py lines 22-23): POST, PUT and PATCH are the
write-like methods. -/
def is_like_post (m : HTTPMethod) : Bool :=
  [HTTPMethod.POST, HTTPMethod.PUT, HTTPMethod.PATCH].contains m

/-- The raw HTTP response consumed by the response adapter (protocols.py
`HTTPResponse`, with the status and reason that
`requests.Response.raise_for_status` reads); the body is embedded as a
string. -/
structure HTTPResponse where
  status_code : Nat
  reason : String
  content : String
  deriving Repr, DecidableEq

/-- Modelled from the spec: `requests.Response.raise_for_status` (the
`requests` library is not part of this repository).  Per the
specification and the adapter's own docstring, it raises `HTTPError` —
carrying the status code and reason — exactly when the status is >= 400,
and otherwise does nothing. -/
def raiseForStatus (r : HTTPResponse) : Except PyError Unit :=
  if 400 ≤ r.status_code then .error (.httpError r.status_code r.reason)
  else .ok ()

/-- A behavioural `DefaultHTTPResponseAdapter Q` (default.py lines
26-37): `__init__` stores `TypeAdapter(model) if model else None`.  The
pydantic `TypeAdapter.validate_json` of the declared model is embedded as
the decoding function `String → Except String Q` (modelled from the
spec's Schema Codec interface: `decode(rawBytes) -> value` or a typed
decoding failure). -/
structure RespDecoder (Q : Type) where
  adapter : Option (String → Except String Q)

/-- `DefaultHTTPResponseAdapter.adapt` (default.py lines 39-55): first
`response.raise_for_status()`, then — only if that does not raise —
decode the body against the declared model, or return the response
object itself when no model was declared. -/
inductive AdaptResult (Q : Type) where
  | model (q : Q)
  | response (r : HTTPResponse)

/-- `DefaultHTTPResponseAdapter.adapt` (default.py lines 39-55). -/
def RespDecoder.adapt {Q : Type} (a : RespDecoder Q) (r : HTTPResponse) :
    Except PyError (AdaptResult Q) :=
  match raiseForStatus r with
  | .error e => .error e
  | .ok _ =>
    match a.adapter with
    | some dec =>
      match dec r.content with
      | .ok q => .ok (.model q)
      | .error msg => .error (.decodingError msg)
    | none => .ok (.response r)

/-- The keyword dictionary built by `DefaultHTTPRequestAdapter.adapt`
(default.py lines 93-100) and handed to `requests.Request`; `J` is the
type of the serialized payload.  `session.prepare_request` is an external
transport call, modelled from the spec as carrying these fields through
unchanged. -/
structure PreparedRequest (J : Type) where
  method : String
  url : String
  headers : Option Headers
  json : Option J := none
  params : Option J := none

/-- A behavioural `DefaultHTTPRequestAdapter T J` (default.py lines
59-82): `__init__` stores `TypeAdapter(model)`.  The pydantic
`dump_python(data, exclude_none=True, exclude_unset=True)` call is
embedded as the serialization function `dump` (modelled from the spec's
Schema Codec interface: `encode(value, excludeUnsetAndNull) ->
JSON-compatible structure`). -/
structure ReqSerializer (T J : Type) where
  dump : Option T → J

/-- `DefaultHTTPRequestAdapter.adapt` (default.py lines 84-100): build the
keyword dictionary with method, url and headers, serialize `data`, then
place the serialized value under `json` when the method is write-like and
under `params` when the method is read-like. -/
def ReqSerializer.adapt {T J S : Type} (a : ReqSerializer T J) (_session : S)
    (method : HTTPMethod) (url : String) (data : Option T) (headers : Option Headers) :
    PreparedRequest J :=
  let adapted := a.dump data
  { method := method.value
    url := url
    headers := headers
    json := if is_like_post method then some adapted else none
    params := if is_like_get method then some adapted else none }

/-- `DefaultHTTPRequestGateway.ingress` (default.py lines 147-148):
delegate to the bound response adapter. -/
def DefaultHTTPRequestGateway.ingress {S RA Q : Type}
    (g : DefaultHTTPRequestGateway S RA (RespDecoder Q)) (r : HTTPResponse) :
    Except PyError (AdaptResult Q) :=
  g.response_adapter.adapt r

/-- `DefaultHTTPRequestGateway.prepare` (default.py lines 135-142):
delegate to the bound request adapter with the gateway's session, url,
method and headers. -/
def DefaultHTTPRequestGateway.prepare {S QA T J : Type}
    (g : DefaultHTTPRequestGateway S (ReqSerializer T J) QA) (data : Option T) :
    PreparedRequest J :=
  g.request_adapter.adapt g.session g.method g.url data g.headers

end DefaultAdapters

section PrecedenceLemmas

/-- The per-field precedence law as the specification words it (written
from the spec, to be compared with the source-derived merge): the result
is the call-time argument when that argument is truthy; otherwise the
attribute of the nearest class in the inheritance chain that defines the
field; otherwise the system default. -/
def SpecPrecedence {α : Type} [PyTruthy α] (arg : Option α)
    (entries : List (Option (Option α))) (dflt result : Option α) : Prop :=
  (truthyPV arg = true → result = arg) ∧
  (truthyPV arg = false → ∀ v, firstDefined entries = some v → result = v) ∧
  (truthyPV arg = false → firstDefined entries = none → result = dflt)

theorem mergeField_precedence {α : Type} [PyTruthy α] (arg : Option α)
    (entries : List (Option (Option α))) (dflt : Option α) :
    SpecPrecedence arg entries dflt (mergeField arg entries dflt) := by
  unfold SpecPrecedence mergeField pyOr mroGetattr
  refine ⟨fun h => ?_, fun h v hv => ?_, fun h hn => ?_⟩
  · simp [h]
  · simp [h, hv]
  · simp [h, hn]

theorem specPrecedence_unique {α : Type} [inst : PyTruthy α] (arg : Option α)
    (entries : List (Option (Option α))) (dflt r r' : Option α)
    (h : SpecPrecedence arg entries dflt r) (h' : SpecPrecedence arg entries dflt r') :
    r = r' := by
  rcases h with ⟨h1, h2, h3⟩
  rcases h' with ⟨h1', h2', h3'⟩
  cases ht : truthyPV arg with
  | true => rw [h1 ht, h1' ht]
  | false =>
    cases hf : firstDefined entries with
    | some v => rw [h2 ht v hf, h2' ht v hf]
    | none => rw [h3 ht hf, h3' ht hf]

/-- `pyOr` keeps a truthy left operand. -/
theorem pyOr_of_truthy {α : Type} [PyTruthy α] {a : Option α} (b : Option α)
    (h : truthyPV a = true) : pyOr a b = a := by
  unfold pyOr
  rw [h]
  rfl

/-- `pyOr` falls through a falsy left operand. -/
theorem pyOr_of_falsy {α : Type} [PyTruthy α] {a : Option α} (b : Option α)
    (h : truthyPV a = false) : pyOr a b = b := by
  unfold pyOr
  rw [h]
  rfl

/-- Every attribute value defined along a chain of string-typed entries is
a string, never `None`. -/
theorem firstDefined_strEntries (f : SpecLayer → Option String) (mro : List SpecLayer)
    (v : Option String) (h : firstDefined (strEntries f mro) = some v) :
    ∃ s, v = some s := by
  induction mro with
  | nil => simp [strEntries, firstDefined, List.findSome?] at h
  | cons L rest ih =>
    unfold strEntries firstDefined at h ih
    rw [List.map_cons, List.findSome?] at h
    cases hfL : f L with
    | none => rw [hfL] at h; exact ih h
    | some s =>
      rw [hfL] at h
      simp only [Option.map_some, id] at h
      exact ⟨s, (Option.some_injective _ h).symm⟩

/-- The composite merge of `base_url` (specs.py line 173: the extra
`or ""`) still satisfies the precedence law, because a class can only
declare `base_url` as a string, and the only falsy string is `""` — so
the trailing `or ""` never changes which declared attribute is used. -/
theorem baseUrl_precedence (arg : Option String) (f : SpecLayer → Option String)
    (mro : List SpecLayer) :
    SpecPrecedence arg (strEntries f mro) (some "")
      (pyOr (mergeField arg (strEntries f mro) (some "")) (some "")) := by
  refine ⟨fun h => ?_, fun h v hv => ?_, fun h hn => ?_⟩
  · rw [mergeField, pyOr_of_truthy _ h, pyOr_of_truthy _ h]
  · obtain ⟨s, rfl⟩ := firstDefined_strEntries f mro v hv
    rw [mergeField, pyOr_of_falsy _ h, mroGetattr, hv, Option.getD_some]
    by_cases hs : s = ""
    · subst hs
      rw [pyOr_of_falsy _ (show truthyPV (some "") = false from rfl)]
    · rw [pyOr_of_truthy]
      simp [truthyPV, PyTruthy.truthy, hs]
  · rw [mergeField, pyOr_of_falsy _ h, mroGetattr, hn, Option.getD_none,
      pyOr_of_falsy _ (show truthyPV (some "") = false from rfl)]

end PrecedenceLemmas

section ClaimOneAndTen

/-- A falsy call-time argument makes the merge fall through to
`getattr`. -/
theorem mergeField_of_falsy {α : Type} [PyTruthy α] {arg : Option α}
    (entries : List (Option (Option α))) (dflt : Option α)
    (h : truthyPV arg = false) :
    mergeField arg entries dflt = mroGetattr entries dflt := by
  rw [mergeField, pyOr_of_falsy _ h]

/-- For string-typed attribute chains the trailing `or ""` of specs.py
line 173 collapses: the `getattr` result is either a declared string or
the default `""`, and `s or ""` is `s` for both empty and non-empty
`s`. -/
theorem baseUrl_or_collapse (f : SpecLayer → Option String) (mro : List SpecLayer) :
    pyOr (mroGetattr (strEntries f mro) (some "")) (some "") =
      mroGetattr (strEntries f mro) (some "") := by
  rw [mroGetattr]
  cases hf : firstDefined (strEntries f mro) with
  | none =>
    rw [Option.getD_none, pyOr_of_falsy _ (show truthyPV (some "") = false from rfl)]
  | some v =>
    obtain ⟨s, rfl⟩ := firstDefined_strEntries f mro v hf
    rw [Option.getD_some]
    by_cases hs : s = ""
    · subst hs
      rw [pyOr_of_falsy _ (show truthyPV (some "") = false from rfl)]
    · rw [pyOr_of_truthy]
      simp [truthyPV, PyTruthy.truthy, hs]

/-- C1 (amended): per-field precedence of specification resolution — for
every configuration field (url, method, base_url, timeout,
request/response model, request/response adapter, session, authorizer,
gateway), the value used by `HTTPGatewaySpec.__init__` is the call-time
argument when a *truthy* one is supplied; otherwise the declaring class's
attribute found by searching its inheritance chain from most derived to
least derived (nearest ancestor wins); otherwise the system default.
The final conjunct shows the three-tier law determines each field's
result uniquely from that field's own argument and attribute chain, so
each field is resolved independently of the others.  (The amendment,
forced by the counterexample `c1_counterexample`: a supplied but *falsy*
argument — `timeout=0`, `base_url=""` — does not win; the truthiness
merge treats it as absent.) -/
theorem c1_precedence_per_field (args : SpecArgs) (L : List SpecLayer) :
    SpecPrecedence args.url (strEntries SpecLayer.url (specMRO L)) none
      (mergeConfig args L).url ∧
    SpecPrecedence args.method (optEntries SpecLayer.method (specMRO L)) none
      (mergeConfig args L).method ∧
    SpecPrecedence args.base_url (strEntries SpecLayer.base_url (specMRO L)) (some "")
      (mergeConfig args L).base_url ∧
    SpecPrecedence args.timeout (optEntries SpecLayer.timeout (specMRO L)) none
      (mergeConfig args L).timeout ∧
    SpecPrecedence args.request_model (optEntries SpecLayer.request_model (specMRO L)) none
      (mergeConfig args L).request_model ∧
    SpecPrecedence args.response_model (optEntries SpecLayer.response_model (specMRO L)) none
      (mergeConfig args L).response_model ∧
    SpecPrecedence args.request_adapter (refEntries SpecLayer.request_adapter (specMRO L))
      (some (.cls defaultReqAdapterClass)) (mergeConfig args L).request_adapter ∧
    SpecPrecedence args.response_adapter (refEntries SpecLayer.response_adapter (specMRO L))
      (some (.cls defaultRespAdapterClass)) (mergeConfig args L).response_adapter ∧
    SpecPrecedence args.session (refEntries SpecLayer.session (specMRO L))
      (some defaultSessionCls) (mergeConfig args L).session ∧
    SpecPrecedence args.authorizer (optEntries SpecLayer.authorizer (specMRO L)) none
      (mergeConfig args L).authorizer ∧
    SpecPrecedence args.gateway (refEntries SpecLayer.gateway (specMRO L))
      (some .defaultGateway) (mergeConfig args L).gateway ∧
    (∀ (α : Type) [PyTruthy α] (arg : Option α)
      (entries : List (Option (Option α))) (dflt r r' : Option α),
      SpecPrecedence arg entries dflt r → SpecPrecedence arg entries dflt r' → r = r') :=
  ⟨mergeField_precedence _ _ _,
   mergeField_precedence _ _ _,
   baseUrl_precedence _ _ _,
   mergeField_precedence _ _ _,
   mergeField_precedence _ _ _,
   mergeField_precedence _ _ _,
   mergeField_precedence _ _ _,
   mergeField_precedence _ _ _,
   mergeField_precedence _ _ _,
   mergeField_precedence _ _ _,
   mergeField_precedence _ _ _,
   fun _ _ _ _ _ _ _ h h' => specPrecedence_unique _ _ _ _ _ h h'⟩

/-- C1 (counterexample to the claim as stated): a call-time `timeout=0`
*is* supplied, yet the value used is the parent class's `timeout=60`, not
the argument — the or-chain of specs.py line 174 selects by truthiness,
so a supplied falsy argument loses. -/
theorem c1_counterexample :
    (mergeConfig { timeout := some 0 } [{ timeout := some (some 60) }]).timeout = some 60 ∧
    (mergeConfig { timeout := some 0 } [{ timeout := some (some 60) }]).timeout ≠ some 0 := by
  exact ⟨rfl, by decide⟩

/-- C1 witness: the amended precedence law evaluated at a concrete
declaration — with no call-time timeout and a parent declaring
`timeout=60`, the resolved timeout is the inherited 60. -/
theorem c1_witness :
    (mergeConfig { url := some "https://api.test" } [{ timeout := some (some 60) }]).timeout
      = some 60 :=
  ((c1_precedence_per_field { url := some "https://api.test" }
      [{ timeout := some (some 60) }]).2.2.2.1).2.1 rfl (some 60) rfl

/-- A falsy call-time argument merges exactly like an omitted one. -/
theorem mergeField_falsy_eq_none {α : Type} [PyTruthy α] {arg : Option α}
    (entries : List (Option (Option α))) (dflt : Option α)
    (h : truthyPV arg = false) :
    mergeField arg entries dflt = mergeField (none : Option α) entries dflt := by
  rw [mergeField_of_falsy _ _ h,
    mergeField_of_falsy _ _ (show truthyPV (none : Option α) = false from rfl)]

/-- C10 (confirmed): in `HTTPGatewaySpec.__init__` a call-time argument
whose value is falsy (timeout `0`, empty `base_url` string, `None`) is
treated as not supplied: for every field, a falsy argument yields exactly
the `getattr` result over the inheritance chain (class attribute, else
system default), and the merged value coincides with the merge in which
the argument is omitted altogether — overrides are selected by
truthiness, not by argument presence. -/
theorem c10_truthiness_merge (args : SpecArgs) (L : List SpecLayer) :
    (truthyPV args.url = false →
      (mergeConfig args L).url = mroGetattr (strEntries SpecLayer.url (specMRO L)) none ∧
      (mergeConfig args L).url = (mergeConfig { args with url := none } L).url) ∧
    (truthyPV args.method = false →
      (mergeConfig args L).method = mroGetattr (optEntries SpecLayer.method (specMRO L)) none ∧
      (mergeConfig args L).method = (mergeConfig { args with method := none } L).method) ∧
    (truthyPV args.base_url = false →
      (mergeConfig args L).base_url = mroGetattr (strEntries SpecLayer.base_url (specMRO L)) (some "") ∧
      (mergeConfig args L).base_url = (mergeConfig { args with base_url := none } L).base_url) ∧
    (truthyPV args.timeout = false →
      (mergeConfig args L).timeout = mroGetattr (optEntries SpecLayer.timeout (specMRO L)) none ∧
      (mergeConfig args L).timeout = (mergeConfig { args with timeout := none } L).timeout) ∧
    (truthyPV args.request_model = false →
      (mergeConfig args L).request_model = mroGetattr (optEntries SpecLayer.request_model (specMRO L)) none ∧
      (mergeConfig args L).request_model = (mergeConfig { args with request_model := none } L).request_model) ∧
    (truthyPV args.response_model = false →
      (mergeConfig args L).response_model = mroGetattr (optEntries SpecLayer.response_model (specMRO L)) none ∧
      (mergeConfig args L).response_model = (mergeConfig { args with response_model := none } L).response_model) ∧
    (truthyPV args.request_adapter = false →
      (mergeConfig args L).request_adapter = mroGetattr (refEntries SpecLayer.request_adapter (specMRO L)) (some (.cls defaultReqAdapterClass)) ∧
      (mergeConfig args L).request_adapter = (mergeConfig { args with request_adapter := none } L).request_adapter) ∧
    (truthyPV args.response_adapter = false →
      (mergeConfig args L).response_adapter = mroGetattr (refEntries SpecLayer.response_adapter (specMRO L)) (some (.cls defaultRespAdapterClass)) ∧
      (mergeConfig args L).response_adapter = (mergeConfig { args with response_adapter := none } L).response_adapter) ∧
    (truthyPV args.session = false →
      (mergeConfig args L).session = mroGetattr (refEntries SpecLayer.session (specMRO L)) (some defaultSessionCls) ∧
      (mergeConfig args L).session = (mergeConfig { args with session := none } L).session) ∧
    (truthyPV args.authorizer = false →
      (mergeConfig args L).authorizer = mroGetattr (optEntries SpecLayer.authorizer (specMRO L)) none ∧
      (mergeConfig args L).authorizer = (mergeConfig { args with authorizer := none } L).authorizer) ∧
    (truthyPV args.gateway = false →
      (mergeConfig args L).gateway = mroGetattr (refEntries SpecLayer.gateway (specMRO L)) (some .defaultGateway) ∧
      (mergeConfig args L).gateway = (mergeConfig { args with gateway := none } L).gateway) := by
  refine ⟨fun h => ⟨?_, ?_⟩, fun h => ⟨?_, ?_⟩, fun h => ⟨?_, ?_⟩, fun h => ⟨?_, ?_⟩,
    fun h => ⟨?_, ?_⟩, fun h => ⟨?_, ?_⟩, fun h => ⟨?_, ?_⟩, fun h => ⟨?_, ?_⟩,
    fun h => ⟨?_, ?_⟩, fun h => ⟨?_, ?_⟩, fun h => ⟨?_, ?_⟩⟩
  · exact mergeField_of_falsy _ _ h
  · exact mergeField_falsy_eq_none _ _ h
  · exact mergeField_of_falsy _ _ h
  · exact mergeField_falsy_eq_none _ _ h
  · show pyOr (mergeField args.base_url (strEntries SpecLayer.base_url (specMRO L)) (some "")) (some "")
      = mroGetattr (strEntries SpecLayer.base_url (specMRO L)) (some "")
    rw [mergeField_of_falsy _ _ h, baseUrl_or_collapse]
  · show pyOr (mergeField args.base_url (strEntries SpecLayer.base_url (specMRO L)) (some "")) (some "")
      = pyOr (mergeField (none : Option String) (strEntries SpecLayer.base_url (specMRO L)) (some "")) (some "")
    rw [mergeField_falsy_eq_none _ _ h]
  · exact mergeField_of_falsy _ _ h
  · exact mergeField_falsy_eq_none _ _ h
  · exact mergeField_of_falsy _ _ h
  · exact mergeField_falsy_eq_none _ _ h
  · exact mergeField_of_falsy _ _ h
  · exact mergeField_falsy_eq_none _ _ h
  · exact mergeField_of_falsy _ _ h
  · exact mergeField_falsy_eq_none _ _ h
  · exact mergeField_of_falsy _ _ h
  · exact mergeField_falsy_eq_none _ _ h
  · exact mergeField_of_falsy _ _ h
  · exact mergeField_falsy_eq_none _ _ h
  · exact mergeField_of_falsy _ _ h
  · exact mergeField_falsy_eq_none _ _ h
  · exact mergeField_of_falsy _ _ h
  · exact mergeField_falsy_eq_none _ _ h

/-- C10 witness: with `base_url=""` supplied at call time and a parent
declaring `base_url="https://test.com"`, the parent's attribute is used:
the empty-string override is treated as not supplied. -/
theorem c10_witness :
    (mergeConfig { base_url := some "", url := some "/x" }
        [{ base_url := some "https://test.com" }]).base_url = some "https://test.com" ∧
    (mergeConfig { base_url := some "", url := some "/x" }
        [{ base_url := some "https://test.com" }]).base_url =
      (mergeConfig { base_url := none, url := some "/x" }
        [{ base_url := some "https://test.com" }]).base_url := by
  have h := (c10_truthiness_merge { base_url := some "", url := some "/x" }
    [{ base_url := some "https://test.com" }]).2.2.1 rfl
  exact ⟨by rw [h.1]; rfl, h.2⟩

end ClaimOneAndTen

section ClaimsTwoToFive

/-- C2 (confirmed): post-merge validation of required fields — whatever
the declaration and call-time overrides, when the merged `url` is empty
(or absent) resolution fails with the configuration error of specs.py
line 187 (`assert _url`), and when the merged `method` is not one of the
recognized `HTTPMethod` members (under the declared types the only such
value is an absent/`None` method) resolution fails with the error of
line 188 (`assert _method`).  Both failures are values of the resolution
function itself — they occur while the spec is constructed, never when
the gateway is later invoked. -/
theorem c2_post_merge_validation (ci : CustomGatewayInits) (args : SpecArgs)
    (L : List SpecLayer) (n : Nat) (fs : Option (List (String × SessionInst))) :
    (truthyPV (mergeConfig args L).url = false →
      specResolve ci args L n fs = .error (.assertionError "url must be provided")) ∧
    (truthyPV (mergeConfig args L).url = true → (mergeConfig args L).method = none →
      specResolve ci args L n fs = .error (.assertionError "method must be provided")) := by
  constructor
  · intro h
    cases hu : (mergeConfig args L).url with
    | none => simp [specResolve, hu]
    | some u =>
      have hu0 : u = "" := by
        rw [hu] at h
        simpa [truthyPV, PyTruthy.truthy] using h
      subst hu0
      simp [specResolve, hu]
  · intro h hm
    cases hu : (mergeConfig args L).url with
    | none => rw [hu] at h; simp [truthyPV] at h
    | some u =>
      have hne : ¬(u == "") = true := by
        rw [hu] at h
        simpa [truthyPV, PyTruthy.truthy] using h
      simp [specResolve, hu, hm, hne]

/-- C2 witness: a spec with no url anywhere fails at construction with
the url assertion; a spec with a url but no method anywhere fails with
the method assertion. -/
theorem c2_witness :
    specResolve (fun _ _ => .error (.typeError "unmodelled user gateway")) {} [] 0 none
      = .error (.assertionError "url must be provided") ∧
    specResolve (fun _ _ => .error (.typeError "unmodelled user gateway"))
        { url := some "https://test.com" } [] 0 none
      = .error (.assertionError "method must be provided") :=
  ⟨(c2_post_merge_validation (fun _ _ => .error (.typeError "unmodelled user gateway"))
      {} [] 0 none).1 rfl,
   (c2_post_merge_validation (fun _ _ => .error (.typeError "unmodelled user gateway"))
      { url := some "https://test.com" } [] 0 none).2 rfl rfl⟩

/-- C3 (confirmed): the URL resolver policy of `get_url` — a `url` that
already carries scheme+host is returned unchanged (the base is ignored);
otherwise, when the base carries scheme+host, the result is the plain
string concatenation `base ++ url` with no slash normalization; and when
neither carries scheme+host the resolver fails with the configuration
error of specs.py lines 30-32. -/
theorem c3_get_url_policy (base url : String) :
    (hasSchemeAndNetloc url = true → get_url base url = .ok url) ∧
    (hasSchemeAndNetloc url = false → hasSchemeAndNetloc base = true →
      get_url base url = .ok (base ++ url)) ∧
    (hasSchemeAndNetloc url = false → hasSchemeAndNetloc base = false →
      get_url base url =
        .error (.valueError "Either the base_url or url must be a valid URL with scheme and netloc.")) := by
  refine ⟨fun h => ?_, fun h hb => ?_, fun h hb => ?_⟩
  · simp [get_url, h]
  · simp [get_url, h, hb]
  · simp [get_url, h, hb]

/-- C3 witness: the three policy branches at the specification's own
examples, including the non-normalizing concatenation. -/
theorem c3_witness :
    get_url "https://api.test" "/users" = .ok ("https://api.test" ++ "/users") ∧
    get_url "" "https://api.test/users" = .ok "https://api.test/users" ∧
    get_url "" "/users" =
      .error (.valueError "Either the base_url or url must be a valid URL with scheme and netloc.") :=
  ⟨(c3_get_url_policy "https://api.test" "/users").2.1 (by decide) (by decide),
   (c3_get_url_policy "" "https://api.test/users").1 (by decide),
   (c3_get_url_policy "" "/users").2.2 (by decide) (by decide)⟩

/-- C4 (code bug): the claim says a declaration with valid url/method
resolves to a Request Gateway bound to the resolved timeout, and the
repository's own tests (test_specs.py) and the `HTTPRequestGateway`
protocol (protocols.py lines 119-131, whose `__init__` declares a
`timeout` parameter) agree — but `HTTPGatewaySpec.__init__` passes
`timeout=` to the gateway class (specs.py lines 205-212) while
`DefaultHTTPRequestGateway.__init__` (default.py lines 118-127) accepts
no such keyword, so every resolution that reaches the default gateway
constructor raises `TypeError`, and the constructed gateway would store
no timeout at all. -/
theorem c4_default_gateway_timeout_type_error :
    specResolve (fun _ _ => .error (.typeError "unmodelled user gateway"))
        { url := some "https://test.com", method := some HTTPMethod.GET } [] 0 none
      = .error (.typeError "DefaultHTTPRequestGateway.__init__ got an unexpected keyword argument timeout") :=
  rfl

/-- C5 (confirmed): adapter type-vs-instance resolution — for each of the
request and response adapters, when the merged reference is a *class* it
is instantiated (once) with the merged model of the matching side, and
when it is already an *instance* it is used unchanged, the model being
ignored (the result is the same for every model value).  The model each
class is instantiated with is `(mergeConfig args L).request_model` /
`.response_model`, i.e. the *merged* model: in the source the branch of
lines 193-203 runs strictly after the merge of lines 171-185. -/
theorem c5_adapter_type_vs_instance (args : SpecArgs) (L : List SpecLayer) :
    (∀ c : ReqAdapterClass, (mergeConfig args L).request_adapter = some (.cls c) →
      initRequestAdapter (mergeConfig args L).request_adapter (mergeConfig args L).request_model
        = some ⟨c, (mergeConfig args L).request_model⟩) ∧
    (∀ a : ReqAdapterInst, (mergeConfig args L).request_adapter = some (.inst a) →
      initRequestAdapter (mergeConfig args L).request_adapter (mergeConfig args L).request_model
          = some a ∧
      ∀ other : Option ModelType,
        initRequestAdapter (mergeConfig args L).request_adapter other = some a) ∧
    (∀ c : RespAdapterClass, (mergeConfig args L).response_adapter = some (.cls c) →
      initResponseAdapter (mergeConfig args L).response_adapter (mergeConfig args L).response_model
        = some ⟨c, (mergeConfig args L).response_model⟩) ∧
    (∀ a : RespAdapterInst, (mergeConfig args L).response_adapter = some (.inst a) →
      initResponseAdapter (mergeConfig args L).response_adapter (mergeConfig args L).response_model
          = some a ∧
      ∀ other : Option ModelType,
        initResponseAdapter (mergeConfig args L).response_adapter other = some a) := by
  refine ⟨fun c hc => ?_, fun a ha => ⟨?_, fun o => ?_⟩,
    fun c hc => ?_, fun a ha => ⟨?_, fun o => ?_⟩⟩
  · rw [hc]; rfl
  · rw [ha]; rfl
  · rw [ha]; rfl
  · rw [hc]; rfl
  · rw [ha]; rfl
  · rw [ha]; rfl

/-- C5 witness: a declaring class whose `request_adapter` is an adapter
class and whose `request_model` is a model type resolves to a fresh
instance of that class carrying that model. -/
theorem c5_witness :
    initRequestAdapter
        (mergeConfig {} [{ request_adapter := some (.cls ⟨"UserRequestAdapter"⟩), request_model := some (some ⟨"User"⟩) }]).request_adapter
        (mergeConfig {} [{ request_adapter := some (.cls ⟨"UserRequestAdapter"⟩), request_model := some (some ⟨"User"⟩) }]).request_model
      = some ⟨⟨"UserRequestAdapter"⟩, some ⟨"User"⟩⟩ :=
  (c5_adapter_type_vs_instance {}
      [{ request_adapter := some (.cls ⟨"UserRequestAdapter"⟩), request_model := some (some ⟨"User"⟩) }]).1
    ⟨"UserRequestAdapter"⟩ rfl

end ClaimsTwoToFive

section ClaimsSixToEight

/-- C6 (confirmed): error precedence in response adaptation — for every
response whose status is >= 400, `DefaultHTTPResponseAdapter.adapt`
raises `HTTPError` carrying the status code and reason, whatever decoder
(model) the adapter holds and whatever the body contains: the
`raise_for_status` call of default.py line 52 runs before any decoding
is attempted. -/
theorem c6_http_error_before_decoding {Q : Type} (a : RespDecoder Q)
    (r : HTTPResponse) (h : 400 ≤ r.status_code) :
    a.adapt r = .error (.httpError r.status_code r.reason) := by
  unfold RespDecoder.adapt raiseForStatus
  simp [h]

/-- C6 witness: a status-500 response with an undecodable body, adapted
by an adapter whose declared model rejects every body, still raises
`HTTPError` — never a decoding error. -/
theorem c6_witness :
    RespDecoder.adapt ⟨some (fun _ => (Except.error "invalid JSON" : Except String Nat))⟩
        ⟨500, "Test Server Error", "not json"⟩
      = .error (.httpError 500 "Test Server Error") :=
  c6_http_error_before_decoding ⟨some (fun _ => (Except.error "invalid JSON" : Except String Nat))⟩
    ⟨500, "Test Server Error", "not json"⟩ (by decide)

/-- C7 (confirmed): the method-shape law of request adaptation — for
every non-null `data`, `DefaultHTTPRequestAdapter.adapt` places the
serialized data as query parameters and not as a body when the method is
read-like (GET, OPTIONS), and as the JSON request body and not as query
parameters when the method is write-like (POST, PUT, PATCH) — the
conditional assignments of default.py lines 96-99. -/
theorem c7_method_shape_law {T J S : Type} (a : ReqSerializer T J) (sess : S)
    (m : HTTPMethod) (url : String) (data : Option T) (hdrs : Option Headers)
    (_hdata : data ≠ none) :
    ((m = .GET ∨ m = .OPTIONS) →
      (a.adapt sess m url data hdrs).params = some (a.dump data) ∧
      (a.adapt sess m url data hdrs).json = none) ∧
    ((m = .POST ∨ m = .PUT ∨ m = .PATCH) →
      (a.adapt sess m url data hdrs).json = some (a.dump data) ∧
      (a.adapt sess m url data hdrs).params = none) := by
  constructor
  · rintro (rfl | rfl) <;> exact ⟨rfl, rfl⟩
  · rintro (rfl | rfl | rfl) <;> exact ⟨rfl, rfl⟩

/-- C7 witness: a concrete GET with data lands in the query parameters
and leaves the body empty; a concrete POST with the same data lands in
the body and leaves the query parameters empty. -/
theorem c7_witness :
    ((ReqSerializer.adapt ⟨fun d => d.getD 0⟩ () HTTPMethod.GET "https://t.com/u" (some 7) none).params
        = some 7 ∧
      (ReqSerializer.adapt ⟨fun d => d.getD 0⟩ () HTTPMethod.GET "https://t.com/u" (some 7) none).json
        = none) ∧
    ((ReqSerializer.adapt ⟨fun d => d.getD 0⟩ () HTTPMethod.POST "https://t.com/u" (some 7) none).json
        = some 7 ∧
      (ReqSerializer.adapt ⟨fun d => d.getD 0⟩ () HTTPMethod.POST "https://t.com/u" (some 7) none).params
        = none) :=
  ⟨(c7_method_shape_law ⟨fun d => d.getD 0⟩ () HTTPMethod.GET "https://t.com/u" (some 7) none
      (by decide)).1 (Or.inl rfl),
    (c7_method_shape_law ⟨fun d => d.getD 0⟩ () HTTPMethod.POST "https://t.com/u" (some 7) none
      (by decide)).2 (Or.inl rfl)⟩

/-- C8 (confirmed): no-model passthrough identity — when the gateway's
response adapter was built with no declared model (its stored pydantic
adapter is `None`, default.py line 37), `ingress(response)` returns the
very response object it was given, for every response with status < 400
(default.py line 55). -/
theorem c8_no_model_passthrough {Q S RA : Type}
    (g : DefaultHTTPRequestGateway S RA (RespDecoder Q)) (r : HTTPResponse)
    (hmodel : g.response_adapter.adapter = none) (hstatus : r.status_code < 400) :
    g.ingress r = .ok (.response r) := by
  unfold DefaultHTTPRequestGateway.ingress RespDecoder.adapt raiseForStatus
  rw [hmodel]
  simp [Nat.not_le.mpr hstatus]

/-- C8 witness: a model-less gateway passes a concrete 200 response
through unchanged. -/
theorem c8_witness :
    DefaultHTTPRequestGateway.ingress
        ({ session := (), url := "https://t.com/u", method := HTTPMethod.GET,
           request_adapter := (), response_adapter := ⟨none⟩ } :
          DefaultHTTPRequestGateway Unit Unit (RespDecoder Nat))
        ⟨200, "OK", "body-bytes"⟩
      = .ok (.response ⟨200, "OK", "body-bytes"⟩) :=
  c8_no_model_passthrough
    ({ session := (), url := "https://t.com/u", method := HTTPMethod.GET,
       request_adapter := (), response_adapter := ⟨none⟩ } :
      DefaultHTTPRequestGateway Unit Unit (RespDecoder Nat))
    ⟨200, "OK", "body-bytes"⟩ rfl (by decide)

end ClaimsSixToEight

section ClaimNine

/-- Decimal value of a digit character. -/
def decVal (c : Char) : Nat := c.toNat - 48

/-- Reading a digit string back as a number. -/
def parseDec (cs : List Char) : Nat :=
  cs.foldl (fun acc c => acc * 10 + decVal c) 0

theorem decVal_digitChar (d : Nat) (h : d < 10) : decVal (Nat.digitChar d) = d := by
  interval_cases d <;> rfl

theorem digitChar_isDigit (d : Nat) (h : d < 10) : (Nat.digitChar d).isDigit = true := by
  interval_cases d <;> rfl

theorem parseDec_append (xs : List Char) (c : Char) :
    parseDec (xs ++ [c]) = parseDec xs * 10 + decVal c := by
  unfold parseDec
  rw [List.foldl_append]
  rfl

theorem parseDec_decChars : ∀ (fuel n : Nat), n < fuel → parseDec (decChars fuel n) = n := by
  intro fuel
  induction fuel with
  | zero => intro n h; exact absurd h (Nat.not_lt_zero n)
  | succ f ih =>
    intro n h
    unfold decChars
    by_cases h10 : n < 10
    · rw [if_pos h10]
      show parseDec [Nat.digitChar n] = n
      unfold parseDec
      simp [List.foldl, decVal_digitChar n h10]
    · have hdiv : n / 10 < n := Nat.div_lt_self (by omega) (by omega)
      rw [if_neg h10, parseDec_append, ih (n / 10) (by omega),
        decVal_digitChar (n % 10) (Nat.mod_lt _ (by omega))]
      omega

theorem pyStrNat_inj {m n : Nat} (h : pyStrNat m = pyStrNat n) : m = n := by
  have hm := parseDec_decChars (m + 1) m (Nat.lt_succ_self m)
  have hn := parseDec_decChars (n + 1) n (Nat.lt_succ_self n)
  have hd : decChars (m + 1) m = decChars (n + 1) n := congrArg String.data h
  rw [← hm, ← hn, hd]

theorem decChars_mem_isDigit :
    ∀ (fuel n : Nat) (c : Char), c ∈ decChars fuel n → c.isDigit = true := by
  intro fuel
  induction fuel with
  | zero => intro n c hc; simp [decChars] at hc
  | succ f ih =>
    intro n c hc
    unfold decChars at hc
    by_cases h10 : n < 10
    · rw [if_pos h10] at hc
      simp only [List.mem_singleton] at hc
      subst hc
      exact digitChar_isDigit n h10
    · rw [if_neg h10, List.mem_append] at hc
      rcases hc with hc | hc
      · exact ih _ _ hc
      · simp only [List.mem_singleton] at hc
        subst hc
        exact digitChar_isDigit (n % 10) (Nat.mod_lt _ (by omega))

theorem pyStrNat_ne_None (n : Nat) : pyStrNat n ≠ "None" := by
  intro h
  have hd : decChars (n + 1) n = "None".data := congrArg String.data h
  have hmem : 'N' ∈ decChars (n + 1) n := by
    rw [hd]
    exact List.mem_cons_self _ _
  have := decChars_mem_isDigit (n + 1) n 'N' hmem
  exact absurd this (by decide)

theorem pyStr_inj {a b : Option Nat} (h : pyStr a = pyStr b) : a = b := by
  cases a with
  | none =>
    cases b with
    | none => rfl
    | some n => exact absurd h.symm (pyStrNat_ne_None n)
  | some m =>
    cases b with
    | none => exact absurd h (pyStrNat_ne_None m)
    | some n => exact congrArg some (pyStrNat_inj h)

theorem contextKey_inj {name : String} {a b : Option Nat}
    (h : contextKey name a = contextKey name b) : a = b := by
  apply pyStr_inj
  have hdata : (name ++ pyStr a).data = (name ++ pyStr b).data := congrArg String.data h
  rw [String.data_append, String.data_append] at hdata
  exact String.ext (List.append_cancel_left hdata)

/-- `dict.setdefault` semantics on the embedded association list: looking
a key up in a store extended behind unrelated entries. -/
theorem lookup_append_of_none {l1 l2 : List (String × SessionInst)} {k : String}
    (h : l1.lookup k = none) : (l1 ++ l2).lookup k = l2.lookup k := by
  induction l1 with
  | nil => rfl
  | cons e es ih =>
    obtain ⟨k1, v1⟩ := e
    rw [List.cons_append]
    simp only [List.lookup] at h ⊢
    cases hk : (k == k1) <;> simp only [hk] at h ⊢
    · exact ih h
    · exact absurd h (Option.some_ne_none v1)

end ClaimNine

/-- C9 (amended): session reuse contract of `DefaultHttpSession` — (i)
two acquisitions through `from_context` with the same context and the
same timeout configuration return the same session instance (the
provider caches under `cls.__name__ + str(read_timeout)`); (iii) from a
fresh context, acquisitions with differing timeout configurations return
distinct instances.  The amendment, forced by `c9_counterexample`:
(ii) because `context.setdefault(key, cls._initialize(...))` evaluates
its second argument eagerly, *every* acquisition constructs a fresh
session (the allocator advances on every call) — the construction is
merely discarded, never returned, when a cached session exists under the
equivalent key. -/
theorem c9_session_reuse (ctx : SessionCtx) (a1 a2 : Option SessionAuthorizer)
    (rt rt1 rt2 : Option Nat) :
    (fromContext defaultSessionCls (fromContext defaultSessionCls ctx a1 rt).2 a2 rt).1
      = (fromContext defaultSessionCls ctx a1 rt).1 ∧
    (fromContext defaultSessionCls ctx a1 rt).2.nextId = ctx.nextId + 1 ∧
    (rt1 ≠ rt2 →
      (fromContext defaultSessionCls ⟨0, []⟩ a1 rt1).1
        ≠ (fromContext defaultSessionCls (fromContext defaultSessionCls ⟨0, []⟩ a1 rt1).2 a2 rt2).1) := by
  refine ⟨?_, ?_, ?_⟩
  · cases h : List.lookup (contextKey defaultSessionCls.name rt) ctx.store with
    | some s => simp [fromContext, h]
    | none =>
      simp only [fromContext, h]
      rw [lookup_append_of_none h]
      simp [List.lookup]
  · cases h : List.lookup (contextKey defaultSessionCls.name rt) ctx.store with
    | some s => simp [fromContext, h, mkSessionInst]
    | none => simp [fromContext, h, mkSessionInst]
  · intro hne
    have hbeq : (contextKey defaultSessionCls.name rt2 == contextKey defaultSessionCls.name rt1) = false :=
      beq_eq_false_iff_ne.mpr (fun hkk => hne (contextKey_inj hkk).symm)
    have hfst : fromContext defaultSessionCls ⟨0, []⟩ a1 rt1
        = ((mkSessionInst defaultSessionCls a1 rt1 0).1,
           ⟨1, [(contextKey defaultSessionCls.name rt1, (mkSessionInst defaultSessionCls a1 rt1 0).1)]⟩) := by
      simp [fromContext, List.lookup, mkSessionInst]
    have hlook : List.lookup (contextKey defaultSessionCls.name rt2)
        [(contextKey defaultSessionCls.name rt1, (mkSessionInst defaultSessionCls a1 rt1 0).1)] = none := by
      simp [List.lookup, hbeq]
    intro heq
    have h1 : (fromContext defaultSessionCls ⟨0, []⟩ a1 rt1).1.sid = 0 := by
      rw [hfst]
      simp [mkSessionInst]
    have h2 : (fromContext defaultSessionCls (fromContext defaultSessionCls ⟨0, []⟩ a1 rt1).2 a2 rt2).1.sid = 1 := by
      rw [hfst]
      simp only [fromContext, hlook]
      simp [mkSessionInst]
    rw [heq, h2] at h1
    exact absurd h1 (by decide)

/-- C9 (counterexample to the claim as stated): the claim says a fresh
session is never constructed when a cached one exists under the
equivalent key — but after a first acquisition with timeout 60, a second
acquisition with the same key returns the cached instance *and still
advances the session allocator from 1 to 2*: the default argument
`cls._initialize(...)` of `setdefault` is evaluated (a session is constructed)
on every call, cache hit or not. -/
theorem c9_counterexample :
    (fromContext defaultSessionCls
        (fromContext defaultSessionCls ⟨0, []⟩ none (some 60)).2 none (some 60)).1
      = (fromContext defaultSessionCls ⟨0, []⟩ none (some 60)).1 ∧
    (fromContext defaultSessionCls ⟨0, []⟩ none (some 60)).2.nextId = 1 ∧
    (fromContext defaultSessionCls
        (fromContext defaultSessionCls ⟨0, []⟩ none (some 60)).2 none (some 60)).2.nextId = 2 := by
  refine ⟨rfl, rfl, rfl⟩

/-- C9 witness: concrete instances of the amended contract — same
timeout (60) twice returns the same instance, and timeouts 5 and 60
return distinct instances. -/
theorem c9_witness :
    (fromContext defaultSessionCls ⟨0, []⟩ none (some 5)).1
      ≠ (fromContext defaultSessionCls (fromContext defaultSessionCls ⟨0, []⟩ none (some 5)).2 none (some 60)).1 :=
  (c9_session_reuse ⟨0, []⟩ none none none (some 5) (some 60)).2.2 (by decide)
